import Mathlib

/-!
Verification development for the Reya DEX conversational-agent plugin
(intent-gated dispatch and caching layer).

The TypeScript sources are shallowly embedded as executable Lean
definitions:

* `src/services/intentAnalyzer.ts` — `IntentType` (a string enum),
  `IntentAnalyzer.analyzeIntent`, `parseAnalysisResponse`,
  `fallbackAnalysis`;
* `src/providers/marketProvider.ts` — `smartDispatchProvider.get`'s
  routing switch;
* `src/actions/priceAction.ts`, `marketAction.ts`, `assetAction.ts` —
  the three `validate` admission checks;
* `src/providers/priceProvider.ts` — `ReyaPriceService` (node-cache
  backed read-through getters, `formatPrice`);
* `src/environment.ts` — `validateReyaConfig`;
* `src/services/intentDispatcher.ts` — `IntentDispatcher.dispatch`.

Foreign platform pieces (the text-completion model, JSON.parse, fetch,
the WHATWG URL parser, wall-clock time) are passed in as explicit
parameters, so every code path of the plugin itself is a total,
computable Lean function.
-/

/-! ## JavaScript string primitives

The sources use `String.prototype.toLowerCase`, `toUpperCase` and
`includes`. Messages and keywords are English and Russian, so the case
maps cover ASCII letters and the basic Cyrillic block
(`А`..`Я` U+0410–U+042F ↔ `а`..`я` U+0430–U+044F, plus `Ё` U+0401 ↔
`ё` U+0451), the only ranges the keyword lists exercise. -/

def jsCharToLower (c : Char) : Char :=
  if 65 ≤ c.toNat ∧ c.toNat ≤ 90 then Char.ofNat (c.toNat + 32)
  else if 0x410 ≤ c.toNat ∧ c.toNat ≤ 0x42F then Char.ofNat (c.toNat + 32)
  else if c.toNat = 0x401 then Char.ofNat 0x451
  else c

def jsCharToUpper (c : Char) : Char :=
  if 97 ≤ c.toNat ∧ c.toNat ≤ 122 then Char.ofNat (c.toNat - 32)
  else if 0x430 ≤ c.toNat ∧ c.toNat ≤ 0x44F then Char.ofNat (c.toNat - 32)
  else if c.toNat = 0x451 then Char.ofNat 0x401
  else c

def jsToLower (s : String) : String := ⟨s.data.map jsCharToLower⟩

def jsToUpper (s : String) : String := ⟨s.data.map jsCharToUpper⟩

/-- `needle.isPrefixOf`-based model of JavaScript `haystack.includes(needle)`:
substring containment on the character lists. -/
def listContains (haystack needle : List Char) : Bool :=
  match haystack with
  | [] => needle.isEmpty
  | _ :: rest => needle.isPrefixOf haystack || listContains rest needle

def strContains (haystack needle : String) : Bool :=
  listContains haystack.data needle.data

/-! ## Intent analyzer (`src/services/intentAnalyzer.ts`)

`IntentType` is a TypeScript *string* enum; its values flow through the
program as plain strings (the gate switches on them and lowercases
unrecognized ones), and `parseAnalysisResponse` casts the model's
`intent` string with `as IntentType`, which performs no runtime check.
The embedding therefore keeps `intent` as a `String` and records the
enumeration as the list of its eight member strings. -/

def intentTypeValues : List String :=
  ["KNOWLEDGE_QUERY", "LIVE_DATA_QUERY", "HISTORICAL_DATA_QUERY",
   "COMPARISON_QUERY", "GENERAL_CHAT", "PRICE_QUERY", "MARKET_QUERY",
   "ASSET_QUERY"]

/-- `IntentAnalysisResult`. `confidence` is an exact rational standing for
the JS number; `extractedEntities` is modelled by its `assets` array,
`none` when the field is absent (the fallback path omits it). -/
structure IntentAnalysisResult where
  intent : String
  confidence : ℚ
  reasoning : String
  shouldUseAPI : Bool
  shouldUseKnowledge : Bool
  extractedEntities : Option (List String)
  deriving DecidableEq, Repr

/-- `IntentAnalyzer.fallbackAnalysis` (intentAnalyzer.ts 154–185):
keyword routing on the lowercased message. -/
def fallbackAnalysis (userMessage : String) : IntentAnalysisResult :=
  let text := jsToLower userMessage
  if strContains text "что такое" || strContains text "what is" ||
      strContains text "explain" then
    { intent := "KNOWLEDGE_QUERY", confidence := 7/10,
      reasoning := "Fallback: detected explanation request",
      shouldUseAPI := false, shouldUseKnowledge := true,
      extractedEntities := none }
  else if strContains text "цена" || strContains text "price" ||
      strContains text "стоимость" then
    { intent := "PRICE_QUERY", confidence := 7/10,
      reasoning := "Fallback: detected price request",
      shouldUseAPI := true, shouldUseKnowledge := false,
      extractedEntities := none }
  else
    { intent := "GENERAL_CHAT", confidence := 1/2,
      reasoning := "Fallback: no clear intent detected",
      shouldUseAPI := false, shouldUseKnowledge := false,
      extractedEntities := none }

/-- Shape of the JSON object produced by `JSON.parse` on the model's
reply (fields may be absent, hence `Option`). `intent` is kept
mandatory: a reply without it is outside every claim's scope. -/
structure JsonAnalysis where
  intent : String
  confidence : Option ℚ
  reasoning : Option String
  shouldUseAPI : Option Bool
  shouldUseKnowledge : Option Bool
  extractedEntities : Option (List String)
  deriving DecidableEq, Repr

/-- JavaScript `x || d` on numbers: `0` (and absence) is falsy. -/
def jsOrQ (x : Option ℚ) (d : ℚ) : ℚ :=
  match x with
  | some v => if v = 0 then d else v
  | none => d

/-- JavaScript `x || d` on strings: `""` (and absence) is falsy. -/
def jsOrStr (x : Option String) (d : String) : String :=
  match x with
  | some v => if v = "" then d else v
  | none => d

/-- `IntentAnalyzer.parseAnalysisResponse` (intentAnalyzer.ts 129–152),
after `JSON.parse` succeeded: the `as IntentType` cast keeps the raw
string, the remaining fields get `||` defaults. -/
def parseAnalysisResponse (j : JsonAnalysis) : IntentAnalysisResult :=
  { intent := j.intent,
    confidence := jsOrQ j.confidence (4/5),
    reasoning := jsOrStr j.reasoning "LLM analysis",
    shouldUseAPI := j.shouldUseAPI.getD false,
    shouldUseKnowledge := j.shouldUseKnowledge.getD false,
    extractedEntities := some (j.extractedEntities.getD []) }

/-- Outcome of the foreign `runtime.useModel` call followed by
`JSON.parse` of its cleaned reply text: the call itself may throw
(`failure`), or the reply may fail to parse as JSON
(`success none`). -/
inductive ModelOutcome where
  | failure
  | success (parsed : Option JsonAnalysis)
  deriving DecidableEq, Repr

/-- `IntentAnalyzer.analyzeIntent` (intentAnalyzer.ts 35–127): any error
thrown by the model call or by `parseAnalysisResponse` is caught and
replaced by `fallbackAnalysis`; the function itself never throws. -/
def analyzeIntent (userMessage : String) (outcome : ModelOutcome) :
    IntentAnalysisResult :=
  match outcome with
  | .failure => fallbackAnalysis userMessage
  | .success none => fallbackAnalysis userMessage
  | .success (some j) => parseAnalysisResponse j

example : (fallbackAnalysis "BTC price").intent = "PRICE_QUERY" := by decide
example : (fallbackAnalysis "ЧТО ТАКОЕ rUSD").intent = "KNOWLEDGE_QUERY" := by
  decide
example : (fallbackAnalysis "hello").intent = "GENERAL_CHAT" := by decide

/-! ## Dispatch gate (`src/providers/marketProvider.ts`,
`smartDispatchProvider.get`)

The provider analyzes the message and then runs a pure, synchronous
`switch` on `analysis.intent` (lines 211–235) producing the three
routing values; it then publishes them, together with the analysis
fields and a `Date.now()` timestamp, as `state.values.smartDispatch`. -/

/-- The three routing values the switch computes. -/
structure Route where
  allowReyaActions : Bool
  blockOtherActions : Bool
  usedSource : String
  deriving DecidableEq, Repr

/-- The routing switch of `smartDispatchProvider.get` (marketProvider.ts
211–235). `KNOWLEDGE_QUERY` blocks; the three API intents allow;
`COMPARISON_QUERY`, `HISTORICAL_DATA_QUERY`, `GENERAL_CHAT` and the
`default` case share one body that keeps the defaults and lowercases
the intent into `usedSource`. -/
def smartDispatchRoute (intent : String) : Route :=
  if intent = "KNOWLEDGE_QUERY" then
    { allowReyaActions := false, blockOtherActions := true,
      usedSource := "knowledge_base" }
  else if intent = "PRICE_QUERY" ∨ intent = "MARKET_QUERY" ∨
      intent = "ASSET_QUERY" then
    { allowReyaActions := true, blockOtherActions := false,
      usedSource := "reya_api" }
  else
    { allowReyaActions := false, blockOtherActions := false,
      usedSource := jsToLower intent }

/-- The `smartDispatch` record published into shared state
(marketProvider.ts 243–258). `timestamp` is `Date.now()` at the moment
of the call, passed in as `now`. -/
structure SmartDispatchValues where
  intent : String
  confidence : ℚ
  reasoning : String
  shouldUseAPI : Bool
  shouldUseKnowledge : Bool
  allowReyaActions : Bool
  blockOtherActions : Bool
  usedSource : String
  extractedEntities : List String
  timestamp : Nat
  deriving DecidableEq, Repr

def smartDispatchValues (a : IntentAnalysisResult) (now : Nat) :
    SmartDispatchValues :=
  let r := smartDispatchRoute a.intent
  { intent := a.intent, confidence := a.confidence,
    reasoning := a.reasoning, shouldUseAPI := a.shouldUseAPI,
    shouldUseKnowledge := a.shouldUseKnowledge,
    allowReyaActions := r.allowReyaActions,
    blockOtherActions := r.blockOtherActions,
    usedSource := r.usedSource,
    extractedEntities := a.extractedEntities.getD [],
    timestamp := now }

/-! ## Action admission checks (`validate`)

The shared state visible to a `validate` call: the `smartDispatch`
record published by the provider under `state.values`, and, as the
`??` fallback read by the asset action, the `data` of a
`SMART_REYA_DISPATCH` entry in `state.recentActions`. `Option` at the
outer level models an altogether absent `state`. -/

structure AgentState where
  smartDispatch : Option SmartDispatchValues
  recentDispatchData : Option SmartDispatchValues

/-- `state?.values?.smartDispatch ?? state?.recentActions?.find(...)?.data`
(assetAction.ts 20–21). -/
def smartDispatchLookup (st : Option AgentState) :
    Option SmartDispatchValues :=
  match st with
  | none => none
  | some s => s.smartDispatch <|> s.recentDispatchData

def priceActionKeywords : List String :=
  ["price", "cost", "worth", "value", "trading", "market", "quote",
   "how much", "what\x27s the price", "current price", "price of",
   "цена", "стоимость", "сколько стоит", "цену", "цены", "прайс",
   "что стоит", "стоит", "сколько", "торги", "котировки"]

def priceActionCryptoSymbols : List String :=
  ["btc", "bitcoin", "eth", "ethereum", "sol", "solana", "usdc", "usdt",
   "hype", "doge", "ada", "matic", "avax", "link", "uni", "aave"]

/-- `getPricesAction.validate` (priceAction.ts 104–134): keyword and
crypto-symbol matching on the lowercased message text only. The
`state` argument is accepted (as in the source signature) but never
consulted. -/
def getPricesActionValidate (messageText : String)
    (_state : Option AgentState) : Bool :=
  let text := jsToLower messageText
  let hasPriceKeyword := priceActionKeywords.any (fun k => strContains text k)
  let hasCryptoSymbol :=
    priceActionCryptoSymbols.any (fun k => strContains text k) ||
      strContains text "reya"
  hasPriceKeyword || hasCryptoSymbol

def marketActionKeywords : List String :=
  ["market", "trading", "pair", "volume", "trade", "activity",
   "24h", "daily", "liquidity", "turnover", "traded",
   "рынок", "торги", "объем", "торговля", "активность",
   "оборот", "ликвидность", "сутки", "суточный"]

/-- `getMarketsAction.validate` (marketAction.ts 18–45): keyword
matching only; the source signature does not even take `state`. -/
def getMarketsActionValidate (messageText : String) : Bool :=
  let text := jsToLower messageText
  let hasMarketKeyword := marketActionKeywords.any (fun k => strContains text k)
  let hasReyaKeyword := strContains text "reya"
  let hasCryptoSymbol :=
    priceActionCryptoSymbols.any (fun k => strContains text k)
  hasMarketKeyword || (hasReyaKeyword && hasCryptoSymbol)

/-- The keyword part of `getAssetsAction.validate` (assetAction.ts
26–34), reached only after the gate approved. -/
def assetKeywordCheck (text : String) : Bool :=
  strContains text "asset" || strContains text "token" ||
    strContains text "contract" || strContains text "supported" ||
    strContains text "collateral" || strContains text "usdc" ||
    strContains text "usdt" ||
    (strContains text "what" && strContains text "available")

/-- `getAssetsAction.validate` (assetAction.ts 16–39): reads the smart
dispatch record; if it is absent or `allowReyaActions` is falsy, the
action declines; otherwise the keyword check runs. -/
def getAssetsActionValidate (messageText : String)
    (st : Option AgentState) : Bool :=
  match smartDispatchLookup st with
  | some d =>
    if d.allowReyaActions then assetKeywordCheck (jsToLower messageText)
    else false
  | none => false

example : getPricesActionValidate "btc price" none = true := by decide
example : getMarketsActionValidate "show me markets" = true := by decide
example : getAssetsActionValidate "list all assets" none = false := by decide
example :
    smartDispatchRoute "LIVE_DATA_QUERY" =
      { allowReyaActions := false, blockOtherActions := false,
        usedSource := "live_data_query" } := by decide

/-! ## Constants (`src/constants/index.ts`) -/

def REYA_API_BASE_URL : String := "https://api.reya.xyz"

def CACHE_TTL_MARKETS : Nat := 300
def CACHE_TTL_MARKET_DATA : Nat := 30
def CACHE_TTL_ASSETS : Nat := 1800
def CACHE_TTL_PRICES : Nat := 10

/-! ## Read-through cache (`node-cache` as used by the services)

`new NodeCache(...)`, `cache.get(key)` and `cache.set(key, v, ttl)`
with ttl in seconds. A stored entry carries an absolute expiry time in
milliseconds (`now + ttl*1000`); `get` returns it only while
`expiresAt > now` (node-cache's lazy expiry: an expired entry behaves
exactly like an absent one). Time is an explicit `Nat` parameter in
milliseconds. -/

structure CacheEntry (α : Type) where
  value : α
  expiresAt : Nat
  deriving DecidableEq, Repr

def CacheMap (α : Type) : Type := List (String × CacheEntry α)

def cacheFind {α : Type} (c : CacheMap α) (key : String) :
    Option (CacheEntry α) :=
  (c.find? (fun kv => kv.1 = key)).map (·.2)

def cacheGet {α : Type} (c : CacheMap α) (key : String) (now : Nat) :
    Option α :=
  match cacheFind c key with
  | some e => if now < e.expiresAt then some e.value else none
  | none => none

def cacheSet {α : Type} (c : CacheMap α) (key : String) (v : α)
    (ttlSeconds now : Nat) : CacheMap α :=
  (key, ⟨v, now + ttlSeconds * 1000⟩) :: c

/-- Whether the underlying store holds any entry at all for `key`
(fresh or expired). -/
def hasKey {α : Type} (c : CacheMap α) (key : String) : Bool :=
  (cacheFind c key).isSome

/-- Outcome of the foreign `fetch` of one endpoint: the promise
rejects, or resolves with a non-ok HTTP status, or delivers a JSON
body. -/
inductive FetchOutcome (α : Type) where
  | transportError (msg : String)
  | httpError (status : Nat)
  | ok (body : α)
  deriving DecidableEq, Repr

/-- The error a getter throws: a rethrown transport error, or the
`HTTP error! status: ...` it builds from a non-ok response. The
`catch` blocks in the services log and rethrow the same value. -/
inductive FetchErr where
  | transport (msg : String)
  | httpStatus (status : Nat)
  deriving DecidableEq, Repr

/-- Result of one getter call: what it returns or throws, the cache
state afterwards, and how many network fetches it performed. -/
structure FetchResult (α : Type) where
  result : Except FetchErr α
  cache : CacheMap α
  networkCalls : Nat

/-- The read-through skeleton shared verbatim by `getMarkets`,
`getMarketsData`, `getMarketData`, `getAssets` and `getPrice`
(e.g. priceProvider.ts 55–79): on a cache hit return the cached value
with no fetch; on a miss fetch once, throw on failure without storing,
and on success store under `key` with `ttl` before returning. -/
def fetchCached {α : Type} (c : CacheMap α) (key : String) (ttl : Nat)
    (now : Nat) (outcome : FetchOutcome α) : FetchResult α :=
  match cacheGet c key now with
  | some v => ⟨.ok v, c, 0⟩
  | none =>
    match outcome with
    | .transportError e => ⟨.error (.transport e), c, 1⟩
    | .httpError s => ⟨.error (.httpStatus s), c, 1⟩
    | .ok v => ⟨.ok v, cacheSet c key v ttl now, 1⟩

/-- `Price` (types/index.ts). The numeric string fields are modelled by
their `parseFloat` reading: `none` stands for a missing or non-numeric
string. -/
structure Price where
  marketId : Nat
  oraclePrice : Option ℚ
  poolPrice : Option ℚ
  price : Option ℚ
  updatedAt : Nat
  assetPairId : String
  deriving DecidableEq, Repr

/-- The `/api/trading/prices` JSON body: an object keyed by
`assetPairId`. -/
def PricesResponse : Type := List (String × Price)

/-- `ReyaPriceService.getPrices` (priceProvider.ts 23–53): the
read-through pattern on key `"reya-prices"` with `CACHE_TTL.PRICES`,
except that the fetched object is first converted by
`Object.entries(...).map(...)` into an array whose elements carry
their `assetPairId`; the converted array is what gets cached and
returned. -/
def getPrices (c : CacheMap (List Price)) (now : Nat)
    (outcome : FetchOutcome PricesResponse) : FetchResult (List Price) :=
  match cacheGet c "reya-prices" now with
  | some v => ⟨.ok v, c, 0⟩
  | none =>
    match outcome with
    | .transportError e => ⟨.error (.transport e), c, 1⟩
    | .httpError s => ⟨.error (.httpStatus s), c, 1⟩
    | .ok raw =>
      let prices := raw.map (fun kp => { kp.2 with assetPairId := kp.1 })
      ⟨.ok prices, cacheSet c "reya-prices" prices CACHE_TTL_PRICES now, 1⟩

/-- `ReyaPriceService.getPrice` (priceProvider.ts 55–79): per-pair key
`reya-price-{assetPairId}`. -/
def getPrice (c : CacheMap Price) (assetPairId : String) (now : Nat)
    (outcome : FetchOutcome Price) : FetchResult Price :=
  fetchCached c ("reya-price-" ++ assetPairId) CACHE_TTL_PRICES now outcome

/-! ## `ReyaPriceService.formatPrice` (priceProvider.ts 86–146)

The input is the `parseFloat` reading of a price field (`none` for
`null`/`undefined`/`''`/non-numeric, which all yield `"N/A"`); numbers
are exact rationals. The locale rendering `toLocaleString(min, max)`
is foreign presentation, so the result is kept symbolic: which branch
ran and with which numeric argument and fraction-digit bounds. -/

inductive FormatResult where
  /-- the `'N/A'` returns -/
  | NA
  /-- the final `'0.00'` branch (`num ≤ 0`) -/
  | zero
  /-- `num.toLocaleString(undefined, {min, max})` -/
  | loc (num : ℚ) (minFrac maxFrac : Nat)
  deriving DecidableEq, Repr

/-- The magnitude ladder at the end of `formatPrice` (lines 118–145). -/
def formatByMagnitude (num : ℚ) : FormatResult :=
  if 1000 ≤ num then .loc num 2 2
  else if 1 ≤ num then .loc num 2 4
  else if 1/100 ≤ num then .loc num 4 6
  else if 0 < num then .loc num 6 8
  else .zero

/-- `formatPrice` proper: the wei heuristic (`num >= 1e15` divides by
`1e18`; if the quotient is still `>= 1e12` return `'N/A'`) followed by
the magnitude ladder. -/
def formatPrice (price : Option ℚ) : FormatResult :=
  match price with
  | none => .NA
  | some num =>
    if 10^15 ≤ num then
      let num := num / 10^18
      if 10^12 ≤ num then .NA
      else formatByMagnitude num
    else formatByMagnitude num

example : formatPrice (some 50000) = .loc 50000 2 2 := by decide
example : formatPrice (some (10^27)) = .loc (10^9) 2 2 := by
  norm_num [formatPrice, formatByMagnitude]
example : formatPrice (some (10^30)) = .NA := by
  norm_num [formatPrice]

/-! ## Configuration validation (`src/environment.ts`)

`getReyaConfig` reads the `REYA_API_BASE_URL` setting and falls back
to the documented default via `||` (empty string and absence are both
falsy). `validateReyaConfig` throws when the value is missing, or when
`new URL(...)` — the foreign WHATWG parser, passed here as the
predicate `isURL` — rejects it. -/

def effectiveBaseUrl (setting : Option String) : String :=
  match setting with
  | some s => if s = "" then REYA_API_BASE_URL else s
  | none => REYA_API_BASE_URL

/-- `validateReyaConfig` (environment.ts 10–23). -/
def validateReyaConfig (isURL : String → Bool) (setting : Option String) :
    Except String Unit :=
  let url := effectiveBaseUrl setting
  if url = "" then .error "REYA_API_BASE_URL is required for Reya plugin"
  else if isURL url then .ok ()
  else .error "REYA_API_BASE_URL must be a valid URL"

/-! ## Intent dispatcher (`src/services/intentDispatcher.ts`)

`IntentDispatcher.dispatch` analyzes the message and routes on the
resulting intent. The upstream fetches the route handlers perform are
passed in as a `FetchEnv` of outcomes; the replies a handler emits
through the host `callback` are collected in a list. The analysis
step is passed as an `Except` so the outer `try/catch` of `dispatch`
(lines 30–61) can be stated over a throwing analysis as well. -/

structure Market where
  id : String
  ticker : String
  name : String
  isActive : Bool
  deriving DecidableEq, Repr

structure Asset where
  address : String
  name : String
  short : String
  decimals : Nat
  deriving DecidableEq, Repr

/-- Outcomes of the upstream fetches available to the route handlers
(each is what the corresponding cached getter would deliver). -/
structure FetchEnv where
  prices : Except FetchErr (List Price)
  markets : Except FetchErr (List Market)
  marketsData : Except FetchErr (List Market)
  assets : Except FetchErr (List Asset)

/-- The record `dispatch` resolves with. -/
structure DispatchResult where
  shouldProceed : Bool
  response : Option String
  usedSource : String
  deriving DecidableEq, Repr

/-- Plain-decimal rendering standing in for the foreign
`toLocaleString` / template-literal number display. -/
def renderFormat (r : FormatResult) : String :=
  match r with
  | .NA => "N/A"
  | .zero => "0.00"
  | .loc q _ _ => toString q

/-- The specific-asset reply of `handlePriceQuery` (intentDispatcher.ts
144–147), with newlines and bullets condensed. -/
def specificPriceText (sym : String) (p : Price) : String :=
  "Current " ++ sym ++ " price on Reya Network: Mark Price: $" ++
    renderFormat (formatPrice p.price) ++ " Oracle Price: $" ++
    renderFormat (formatPrice p.oraclePrice) ++ " Pool Price: $" ++
    renderFormat (formatPrice p.poolPrice)

/-- The overview reply of `handlePriceQuery` (intentDispatcher.ts
162–169), condensed. -/
def priceOverviewText (prices : List Price) : String :=
  let valid := prices.filter (fun p => p.price.isSome)
  let top := valid.take 3
  "Reya Network Price Overview: " ++
    String.intercalate " " (top.map fun p =>
      "Market " ++ toString p.marketId ++ ": $" ++
        renderFormat (formatPrice p.price)) ++
    " " ++ toString prices.length ++ " active markets total"

/-- `IntentDispatcher.handlePriceQuery` (intentDispatcher.ts 119–188):
fetch prices; on any upstream failure, catch it and yield
`shouldProceed: true, usedSource: "api_error"` with no callback
emission; on success, answer for the first extracted asset with a
matching price, else with the overview, emitting the reply. -/
def handlePriceQuery (a : IntentAnalysisResult) (env : FetchEnv) :
    DispatchResult × List String :=
  match env.prices with
  | .error _ =>
    ({ shouldProceed := true, response := none, usedSource := "api_error" },
     [])
  | .ok prices =>
    let assets := a.extractedEntities.getD []
    match assets with
    | sym :: _ =>
      let assetSymbol := jsToUpper sym
      match prices.find? (fun p =>
          strContains (toString p.marketId) assetSymbol ||
            strContains p.assetPairId assetSymbol) with
      | some p =>
        let r := specificPriceText assetSymbol p
        ({ shouldProceed := false, response := some r,
           usedSource := "reya_api_price" }, [r])
      | none =>
        let r := priceOverviewText prices
        ({ shouldProceed := false, response := some r,
           usedSource := "reya_api_price" }, [r])
    | [] =>
      let r := priceOverviewText prices
      ({ shouldProceed := false, response := some r,
         usedSource := "reya_api_price" }, [r])

/-- The reply of `handleMarketQuery` (intentDispatcher.ts 206–212),
condensed. -/
def marketOverviewText (markets : List Market) : String :=
  let active := markets.filter (·.isActive)
  let top := active.take 5
  "Reya Network Markets: " ++
    String.intercalate " " (top.map fun m =>
      m.ticker ++ " ID: " ++ m.id) ++
    " Total: " ++ toString markets.length ++ " markets " ++
    toString active.length ++ " active"

/-- `IntentDispatcher.handleMarketQuery` (intentDispatcher.ts 190–231):
fetches both `getMarkets` and `getMarketsData`; failure of either is
caught as `api_error` with no emission. -/
def handleMarketQuery (env : FetchEnv) : DispatchResult × List String :=
  match env.markets with
  | .error _ =>
    ({ shouldProceed := true, response := none, usedSource := "api_error" },
     [])
  | .ok markets =>
    match env.marketsData with
    | .error _ =>
      ({ shouldProceed := true, response := none, usedSource := "api_error" },
       [])
    | .ok _ =>
      let r := marketOverviewText markets
      ({ shouldProceed := false, response := some r,
         usedSource := "reya_api_market" }, [r])

/-- The reply of `handleAssetQuery` (intentDispatcher.ts 245–250),
condensed. -/
def assetOverviewText (assets : List Asset) : String :=
  "Reya Network Supported Assets: " ++
    String.intercalate " " ((assets.take 10).map (·.name)) ++
    " Total: " ++ toString assets.length ++ " assets supported"

/-- `IntentDispatcher.handleAssetQuery` (intentDispatcher.ts 233–269). -/
def handleAssetQuery (env : FetchEnv) : DispatchResult × List String :=
  match env.assets with
  | .error _ =>
    ({ shouldProceed := true, response := none, usedSource := "api_error" },
     [])
  | .ok assets =>
    let r := assetOverviewText assets
    ({ shouldProceed := false, response := some r,
       usedSource := "reya_api_asset" }, [r])

/-- `IntentDispatcher.routeRequest` (intentDispatcher.ts 64–103): the
switch over `analysis.intent`. Knowledge queries block API actions
without answering; comparison, historical and the
`GENERAL_CHAT`/default row let other handlers proceed. -/
def routeRequest (a : IntentAnalysisResult) (env : FetchEnv) :
    DispatchResult × List String :=
  if a.intent = "KNOWLEDGE_QUERY" then
    ({ shouldProceed := false, response := none,
       usedSource := "knowledge_base" }, [])
  else if a.intent = "PRICE_QUERY" then handlePriceQuery a env
  else if a.intent = "MARKET_QUERY" then handleMarketQuery env
  else if a.intent = "ASSET_QUERY" then handleAssetQuery env
  else if a.intent = "COMPARISON_QUERY" then
    ({ shouldProceed := true, response := none,
       usedSource := "comparison_hybrid" }, [])
  else if a.intent = "HISTORICAL_DATA_QUERY" then
    ({ shouldProceed := true, response := none,
       usedSource := "historical_data" }, [])
  else
    ({ shouldProceed := true, response := none,
       usedSource := "general_chat" }, [])

/-- `IntentDispatcher.dispatch` (intentDispatcher.ts 21–62): anything
thrown by the analysis or the routing is caught and turned into
`shouldProceed: true, response: undefined, usedSource: "fallback"`. -/
def dispatch (analysisOutcome : Except String IntentAnalysisResult)
    (env : FetchEnv) : DispatchResult × List String :=
  match analysisOutcome with
  | .error _ =>
    ({ shouldProceed := true, response := none, usedSource := "fallback" },
     [])
  | .ok a => routeRequest a env

/-! ## Concrete objects used by the witnesses -/

/-- The smart-dispatch record the gate publishes for a knowledge query
(its `allowReyaActions` is `false`). -/
def knowledgeFlags : SmartDispatchValues :=
  smartDispatchValues (fallbackAnalysis "что такое rUSD") 0

/-- The fallback analysis of a price question (its intent is
`"PRICE_QUERY"`). -/
def priceAnalysisExample : IntentAnalysisResult :=
  fallbackAnalysis "btc price"

/-- An environment in which every upstream fetch fails. -/
def envAllFail : FetchEnv :=
  { prices := .error (.httpStatus 500),
    markets := .error (.httpStatus 500),
    marketsData := .error (.httpStatus 500),
    assets := .error (.httpStatus 500) }

/-! ## Helper lemmas -/

theorem cacheGet_eq_none_of_hasKey_false {α : Type} {c : CacheMap α}
    {key : String} (h : hasKey c key = false) (t : Nat) :
    cacheGet c key t = none := by
  unfold cacheGet
  unfold hasKey at h
  cases hf : cacheFind c key with
  | none => rfl
  | some e => rw [hf] at h; simp at h

theorem cacheFind_cacheSet_self {α : Type} (c : CacheMap α) (key : String)
    (v : α) (ttl now : Nat) :
    cacheFind (cacheSet c key v ttl now) key =
      some ⟨v, now + ttl * 1000⟩ := by
  unfold cacheFind cacheSet
  rw [List.find?_cons_of_pos _ (by simp)]
  rfl

theorem cacheGet_cacheSet_fresh {α : Type} (c : CacheMap α) (key : String)
    (v : α) (ttl now now' : Nat) (hlt : now' < now + ttl * 1000) :
    cacheGet (cacheSet c key v ttl now) key now' = some v := by
  unfold cacheGet
  rw [cacheFind_cacheSet_self]
  show (if now' < now + ttl * 1000 then some v else none) = some v
  rw [if_pos hlt]

theorem fallbackAnalysis_intent_mem (msg : String) :
    (fallbackAnalysis msg).intent ∈
      ["KNOWLEDGE_QUERY", "PRICE_QUERY", "GENERAL_CHAT"] := by
  unfold fallbackAnalysis
  dsimp only
  split
  · decide
  · split
    · decide
    · decide

theorem formatByMagnitude_ne_NA (q : ℚ) :
    formatByMagnitude q ≠ FormatResult.NA := by
  unfold formatByMagnitude
  split
  · simp
  · split
    · simp
    · split
      · simp
      · split <;> simp

theorem wei_threshold (q : ℚ) :
    ((10:ℚ)^12 ≤ q / 10^18) ↔ (10:ℚ)^30 ≤ q := by
  rw [le_div_iff₀ (by norm_num : (0:ℚ) < 10^18)]
  norm_num

theorem effectiveBaseUrl_ne_empty (setting : Option String) :
    effectiveBaseUrl setting ≠ "" := by
  cases setting with
  | none => decide
  | some s =>
    show (if s = "" then REYA_API_BASE_URL else s) ≠ ""
    split
    · decide
    · assumption

/-! ## Claims -/

/-- C1 counterexample: with shared state absent entirely (so the smart
dispatch flags are absent), `getPricesAction.validate` and
`getMarketsAction.validate` still admit messages containing the
resource keywords "price"/"BTC"/"volume" — refuting the claim that all
three API-backed admission checks return false in that situation. -/
theorem priceAndMarketValidate_admit_without_gate :
    smartDispatchLookup none = none ∧
    getPricesActionValidate "what is the BTC price" none = true ∧
    getMarketsActionValidate "BTC volume on reya" = true := by decide

/-- C1 (amended): only `getAssetsAction.validate` enforces the gate —
when the smart-dispatch record is absent from shared state or carries
`allowReyaActions = false`, it returns false regardless of the message
text. `getPricesAction.validate` never consults its state argument
(and `getMarketsAction.validate` takes no state at all), so their
keyword-based admission is unaffected by the gate. -/
theorem gateAbsent_assetDeclines_priceIgnoresState (msg : String)
    (st : Option AgentState)
    (h : smartDispatchLookup st = none ∨
      ∃ d, smartDispatchLookup st = some d ∧ d.allowReyaActions = false) :
    getAssetsActionValidate msg st = false ∧
    ∀ st', getPricesActionValidate msg st =
      getPricesActionValidate msg st' := by
  refine ⟨?_, fun _ => rfl⟩
  unfold getAssetsActionValidate
  rcases h with h | ⟨d, hd, ha⟩
  · rw [h]
  · rw [hd]
    show (if d.allowReyaActions = true then
      assetKeywordCheck (jsToLower msg) else false) = false
    rw [ha]
    simp

/-- C1 witness: the asset admission check declines "list all supported
assets" when the published flags came from a knowledge query. -/
theorem gateAbsent_assetDeclines_witness :
    getAssetsActionValidate "list all supported assets"
      (some ⟨some knowledgeFlags, none⟩) = false ∧
    ∀ st', getPricesActionValidate "list all supported assets"
        (some ⟨some knowledgeFlags, none⟩) =
      getPricesActionValidate "list all supported assets" st' :=
  gateAbsent_assetDeclines_priceIgnoresState _ _
    (Or.inr ⟨knowledgeFlags, rfl, by decide⟩)

/-- C2: the Dispatch Gate's routing switch realizes exactly the
claimed table on every value of the `IntentType` enumeration —
including `LIVE_DATA_QUERY`, which lies outside the spec's 7-intent
taxonomy and falls into the default row with its lowercased name as
`usedSource`. The switch is a total function by construction, so no
enumeration value yields an undefined routing result. -/
theorem smartDispatchRoute_table :
    smartDispatchRoute "KNOWLEDGE_QUERY" =
      { allowReyaActions := false, blockOtherActions := true,
        usedSource := "knowledge_base" } ∧
    smartDispatchRoute "PRICE_QUERY" =
      { allowReyaActions := true, blockOtherActions := false,
        usedSource := "reya_api" } ∧
    smartDispatchRoute "MARKET_QUERY" =
      { allowReyaActions := true, blockOtherActions := false,
        usedSource := "reya_api" } ∧
    smartDispatchRoute "ASSET_QUERY" =
      { allowReyaActions := true, blockOtherActions := false,
        usedSource := "reya_api" } ∧
    smartDispatchRoute "COMPARISON_QUERY" =
      { allowReyaActions := false, blockOtherActions := false,
        usedSource := "comparison_query" } ∧
    smartDispatchRoute "HISTORICAL_DATA_QUERY" =
      { allowReyaActions := false, blockOtherActions := false,
        usedSource := "historical_data_query" } ∧
    smartDispatchRoute "GENERAL_CHAT" =
      { allowReyaActions := false, blockOtherActions := false,
        usedSource := "general_chat" } ∧
    smartDispatchRoute "LIVE_DATA_QUERY" =
      { allowReyaActions := false, blockOtherActions := false,
        usedSource := "live_data_query" } := by decide

/-- C5 counterexample: when the model call succeeds and its reply
parses as JSON whose `intent` string is not an enumeration member, the
unchecked `as IntentType` cast passes it straight through, so the
analysis handed to the Dispatch Gate has an intent outside the
`IntentType` enumeration — refuting the claim's "always a valid
IntentAnalysis whose intent field is a member of the IntentType
enumeration". -/
theorem analyzeIntent_passes_unvalidated_intent :
    (analyzeIntent "btc"
        (.success (some
          { intent := "LIVE_PRICE_FEED", confidence := none,
            reasoning := none, shouldUseAPI := none,
            shouldUseKnowledge := none,
            extractedEntities := none }))).intent ∉
      intentTypeValues := by decide

/-- C5 (amended): `analyzeIntent` never propagates an error — it is a
total function of the message and the model outcome — and whenever the
model call fails or its output is unparseable, the keyword fallback is
used, whose intent is always a member of the `IntentType` enumeration.
(On a successfully parsed reply, however, the intent string is adopted
without validation and may lie outside the enumeration.) -/
theorem analyzeIntent_total_fallback_on_error (msg : String)
    (o : ModelOutcome)
    (h : o = .failure ∨ o = .success none) :
    analyzeIntent msg o = fallbackAnalysis msg ∧
    (fallbackAnalysis msg).intent ∈ intentTypeValues := by
  constructor
  · rcases h with h | h <;> rw [h] <;> rfl
  · have hm := fallbackAnalysis_intent_mem msg
    simp only [List.mem_cons, List.not_mem_nil, or_false] at hm
    rcases hm with h | h | h <;> rw [h] <;> decide

/-- C5 witness: a failed model call on "btc price" yields the fallback
analysis, whose intent is in the enumeration. -/
theorem analyzeIntent_fallback_witness :
    analyzeIntent "btc price" .failure = fallbackAnalysis "btc price" ∧
    (fallbackAnalysis "btc price").intent ∈ intentTypeValues :=
  analyzeIntent_total_fallback_on_error "btc price" .failure (Or.inl rfl)

/-- C6: on the fallback path, any message whose lowercased text
contains "price", "цена" or "стоимость" and none of the
knowledge-query markers "что такое" / "what is" / "explain" yields
exactly `intent = PRICE_QUERY, shouldUseAPI = true,
shouldUseKnowledge = false` with the fixed confidence 0.7 — the
fallback is a pure function of the message, so repeated calls agree —
and every message yields one of KNOWLEDGE_QUERY, PRICE_QUERY,
GENERAL_CHAT. -/
theorem fallbackAnalysis_price_deterministic (msg : String)
    (hp : strContains (jsToLower msg) "price" = true ∨
      strContains (jsToLower msg) "цена" = true ∨
      strContains (jsToLower msg) "стоимость" = true)
    (hk1 : strContains (jsToLower msg) "что такое" = false)
    (hk2 : strContains (jsToLower msg) "what is" = false)
    (hk3 : strContains (jsToLower msg) "explain" = false) :
    fallbackAnalysis msg =
      { intent := "PRICE_QUERY", confidence := 7/10,
        reasoning := "Fallback: detected price request",
        shouldUseAPI := true, shouldUseKnowledge := false,
        extractedEntities := none } ∧
    ∀ m, (fallbackAnalysis m).intent ∈
      ["KNOWLEDGE_QUERY", "PRICE_QUERY", "GENERAL_CHAT"] := by
  refine ⟨?_, fallbackAnalysis_intent_mem⟩
  unfold fallbackAnalysis
  dsimp only
  rw [hk1, hk2, hk3]
  rcases hp with h | h | h <;> rw [h] <;> simp

/-- C6 witness: the message "BTC price" satisfies the keyword
hypotheses and maps to the fixed PRICE_QUERY result. -/
theorem fallbackAnalysis_price_witness :
    (strContains (jsToLower "BTC price") "price" = true ∨
      strContains (jsToLower "BTC price") "цена" = true ∨
      strContains (jsToLower "BTC price") "стоимость" = true) ∧
    (fallbackAnalysis "BTC price" =
      { intent := "PRICE_QUERY", confidence := 7/10,
        reasoning := "Fallback: detected price request",
        shouldUseAPI := true, shouldUseKnowledge := false,
        extractedEntities := none } ∧
    ∀ m, (fallbackAnalysis m).intent ∈
      ["KNOWLEDGE_QUERY", "PRICE_QUERY", "GENERAL_CHAT"]) :=
  ⟨Or.inl (by decide),
   fallbackAnalysis_price_deterministic "BTC price" (Or.inl (by decide))
     (by decide) (by decide) (by decide)⟩

/-- C7 counterexample: the record the gate publishes includes a
`Date.now()` timestamp, so two invocations on the same
`IntentAnalysis` at different instants do NOT produce flags with every
field equal. -/
theorem gateFlags_differ_across_instants :
    smartDispatchValues (fallbackAnalysis "цена BTC") 0 ≠
      smartDispatchValues (fallbackAnalysis "цена BTC") 1 := by
  intro h
  have ht := congrArg SmartDispatchValues.timestamp h
  simp [smartDispatchValues] at ht

/-- C7 (amended): the gate's decision is pure in the analysis except
for the debugging timestamp: two invocations on equal `IntentAnalysis`
values agree on every published field other than `timestamp` (which
records the invocation instant), and the three routing fields are
exactly the pure routing switch applied to the analysis' intent; in
the embedding no handler can mutate the published record, which is a
plain value. -/
theorem gateDecision_pure_except_timestamp (a₁ a₂ : IntentAnalysisResult)
    (t₁ t₂ : Nat) (h : a₁ = a₂) :
    ((smartDispatchValues a₁ t₁).intent =
        (smartDispatchValues a₂ t₂).intent ∧
      (smartDispatchValues a₁ t₁).confidence =
        (smartDispatchValues a₂ t₂).confidence ∧
      (smartDispatchValues a₁ t₁).reasoning =
        (smartDispatchValues a₂ t₂).reasoning ∧
      (smartDispatchValues a₁ t₁).shouldUseAPI =
        (smartDispatchValues a₂ t₂).shouldUseAPI ∧
      (smartDispatchValues a₁ t₁).shouldUseKnowledge =
        (smartDispatchValues a₂ t₂).shouldUseKnowledge ∧
      (smartDispatchValues a₁ t₁).allowReyaActions =
        (smartDispatchValues a₂ t₂).allowReyaActions ∧
      (smartDispatchValues a₁ t₁).blockOtherActions =
        (smartDispatchValues a₂ t₂).blockOtherActions ∧
      (smartDispatchValues a₁ t₁).usedSource =
        (smartDispatchValues a₂ t₂).usedSource ∧
      (smartDispatchValues a₁ t₁).extractedEntities =
        (smartDispatchValues a₂ t₂).extractedEntities) ∧
    (smartDispatchValues a₁ t₁).timestamp = t₁ ∧
    (smartDispatchValues a₁ t₁).allowReyaActions =
      (smartDispatchRoute a₁.intent).allowReyaActions ∧
    (smartDispatchValues a₁ t₁).blockOtherActions =
      (smartDispatchRoute a₁.intent).blockOtherActions ∧
    (smartDispatchValues a₁ t₁).usedSource =
      (smartDispatchRoute a₁.intent).usedSource := by
  subst h
  exact ⟨⟨rfl, rfl, rfl, rfl, rfl, rfl, rfl, rfl, rfl⟩, rfl, rfl, rfl, rfl⟩

/-- C7 witness: the amended purity statement at the concrete analysis
of "цена BTC" and instants 0 and 1. -/
theorem gateDecision_pure_witness :
    ((smartDispatchValues (fallbackAnalysis "цена BTC") 0).intent =
        (smartDispatchValues (fallbackAnalysis "цена BTC") 1).intent ∧
      (smartDispatchValues (fallbackAnalysis "цена BTC") 0).confidence =
        (smartDispatchValues (fallbackAnalysis "цена BTC") 1).confidence ∧
      (smartDispatchValues (fallbackAnalysis "цена BTC") 0).reasoning =
        (smartDispatchValues (fallbackAnalysis "цена BTC") 1).reasoning ∧
      (smartDispatchValues (fallbackAnalysis "цена BTC") 0).shouldUseAPI =
        (smartDispatchValues (fallbackAnalysis "цена BTC") 1).shouldUseAPI ∧
      (smartDispatchValues (fallbackAnalysis "цена BTC") 0).shouldUseKnowledge =
        (smartDispatchValues (fallbackAnalysis "цена BTC") 1).shouldUseKnowledge ∧
      (smartDispatchValues (fallbackAnalysis "цена BTC") 0).allowReyaActions =
        (smartDispatchValues (fallbackAnalysis "цена BTC") 1).allowReyaActions ∧
      (smartDispatchValues (fallbackAnalysis "цена BTC") 0).blockOtherActions =
        (smartDispatchValues (fallbackAnalysis "цена BTC") 1).blockOtherActions ∧
      (smartDispatchValues (fallbackAnalysis "цена BTC") 0).usedSource =
        (smartDispatchValues (fallbackAnalysis "цена BTC") 1).usedSource ∧
      (smartDispatchValues (fallbackAnalysis "цена BTC") 0).extractedEntities =
        (smartDispatchValues (fallbackAnalysis "цена BTC") 1).extractedEntities) ∧
    (smartDispatchValues (fallbackAnalysis "цена BTC") 0).timestamp = 0 ∧
    (smartDispatchValues (fallbackAnalysis "цена BTC") 0).allowReyaActions =
      (smartDispatchRoute (fallbackAnalysis "цена BTC").intent).allowReyaActions ∧
    (smartDispatchValues (fallbackAnalysis "цена BTC") 0).blockOtherActions =
      (smartDispatchRoute (fallbackAnalysis "цена BTC").intent).blockOtherActions ∧
    (smartDispatchValues (fallbackAnalysis "цена BTC") 0).usedSource =
      (smartDispatchRoute (fallbackAnalysis "цена BTC").intent).usedSource :=
  gateDecision_pure_except_timestamp _ _ 0 1 rfl

/-- C3: when the loader fails — the fetch rejects (transport error) or
the HTTP response is non-ok — on a key the cache does not hold, the
corresponding error is thrown to the caller unmodified, the cache is
left exactly as it was (nothing is stored for the key), and a
subsequent call at any time performs the network fetch again; stated
for the generic read-through skeleton (hence for every key and TTL)
and for `getPrices` on its `"reya-prices"` key. -/
theorem loaderFailure_propagates_nothingCached {α : Type}
    (c : CacheMap α) (key : String) (ttl now : Nat) (e : String) (s : Nat)
    (cp : CacheMap (List Price)) (now0 : Nat)
    (h : hasKey c key = false) (hp : hasKey cp "reya-prices" = false) :
    ((fetchCached c key ttl now (.transportError e)).result =
        .error (.transport e) ∧
      (fetchCached c key ttl now (.transportError e)).cache = c) ∧
    ((fetchCached c key ttl now (.httpError s)).result =
        .error (.httpStatus s) ∧
      (fetchCached c key ttl now (.httpError s)).cache = c) ∧
    (∀ now' o, (fetchCached c key ttl now' o).networkCalls = 1) ∧
    ((getPrices cp now0 (.transportError e)).result =
        .error (.transport e) ∧
      (getPrices cp now0 (.transportError e)).cache = cp ∧
      ∀ now' o, (getPrices cp now' o).networkCalls = 1) := by
  have hg := cacheGet_eq_none_of_hasKey_false h
  have hgp := cacheGet_eq_none_of_hasKey_false hp
  refine ⟨⟨?_, ?_⟩, ⟨?_, ?_⟩, ?_, ?_, ?_, ?_⟩
  · unfold fetchCached; rw [hg]
  · unfold fetchCached; rw [hg]
  · unfold fetchCached; rw [hg]
  · unfold fetchCached; rw [hg]
  · intro now' o
    unfold fetchCached; rw [hg]
    cases o <;> rfl
  · unfold getPrices; rw [hgp]
  · unfold getPrices; rw [hgp]
  · intro now' o
    unfold getPrices; rw [hgp]
    cases o <;> rfl

/-- C3 witness: on the empty cache, a transport failure of the prices
fetch is rethrown, nothing is cached, and the next call fetches
again. -/
theorem loaderFailure_witness :
    hasKey ([] : CacheMap Nat) "reya-markets" = false ∧
    hasKey ([] : CacheMap (List Price)) "reya-prices" = false ∧
    ((fetchCached ([] : CacheMap Nat) "reya-markets" 300 0
        (.transportError "ECONNREFUSED")).result =
      .error (.transport "ECONNREFUSED") ∧
     (fetchCached ([] : CacheMap Nat) "reya-markets" 300 0
        (.transportError "ECONNREFUSED")).cache = []) ∧
    ((fetchCached ([] : CacheMap Nat) "reya-markets" 300 0
        (.httpError 500)).result = .error (.httpStatus 500) ∧
     (fetchCached ([] : CacheMap Nat) "reya-markets" 300 0
        (.httpError 500)).cache = []) ∧
    (∀ now' o, (fetchCached ([] : CacheMap Nat) "reya-markets" 300 now'
        o).networkCalls = 1) ∧
    ((getPrices [] 0 (.transportError "ECONNREFUSED")).result =
        .error (.transport "ECONNREFUSED") ∧
      (getPrices [] 0 (.transportError "ECONNREFUSED")).cache = [] ∧
      ∀ now' o, (getPrices [] now' o).networkCalls = 1) :=
  ⟨rfl, rfl,
   loaderFailure_propagates_nothingCached [] "reya-markets" 300 0
     "ECONNREFUSED" 500 [] 0 rfl rfl⟩

/-- C4: on a miss for a key the cache does not hold, a getter performs
exactly one network call and, on success, stores the result under the
resource's key with its TTL (absolute expiry `now + ttl·1000` ms)
before returning it; any second call within the TTL window performs
zero network calls and returns the identical cached value, leaving the
cache untouched. Stated for the generic read-through skeleton and for
`getPrices` (whose stored value is the entries-to-array conversion of
the fetched object, with `CACHE_TTL.PRICES`). -/
theorem cacheFreshness {α : Type} (c : CacheMap α) (key : String)
    (ttl now : Nat) (v : α) (cp : CacheMap (List Price)) (now0 : Nat)
    (raw : PricesResponse)
    (h : hasKey c key = false) (hp : hasKey cp "reya-prices" = false) :
    ((fetchCached c key ttl now (.ok v)).networkCalls = 1 ∧
     (fetchCached c key ttl now (.ok v)).result = .ok v ∧
     cacheFind (fetchCached c key ttl now (.ok v)).cache key =
       some ⟨v, now + ttl * 1000⟩ ∧
     ∀ now', now' < now + ttl * 1000 → ∀ o,
       (fetchCached (fetchCached c key ttl now (.ok v)).cache key ttl now'
          o).networkCalls = 0 ∧
       (fetchCached (fetchCached c key ttl now (.ok v)).cache key ttl now'
          o).result = .ok v ∧
       (fetchCached (fetchCached c key ttl now (.ok v)).cache key ttl now'
          o).cache = (fetchCached c key ttl now (.ok v)).cache) ∧
    ((getPrices cp now0 (.ok raw)).networkCalls = 1 ∧
     (getPrices cp now0 (.ok raw)).result =
       .ok (raw.map fun kp => { kp.2 with assetPairId := kp.1 }) ∧
     cacheFind (getPrices cp now0 (.ok raw)).cache "reya-prices" =
       some ⟨raw.map fun kp => { kp.2 with assetPairId := kp.1 },
         now0 + CACHE_TTL_PRICES * 1000⟩ ∧
     ∀ now', now' < now0 + CACHE_TTL_PRICES * 1000 → ∀ o,
       (getPrices (getPrices cp now0 (.ok raw)).cache now'
          o).networkCalls = 0 ∧
       (getPrices (getPrices cp now0 (.ok raw)).cache now' o).result =
         .ok (raw.map fun kp => { kp.2 with assetPairId := kp.1 })) := by
  have hg := cacheGet_eq_none_of_hasKey_false h
  have hgp := cacheGet_eq_none_of_hasKey_false hp
  have hstep : fetchCached c key ttl now (.ok v) =
      ⟨.ok v, cacheSet c key v ttl now, 1⟩ := by
    unfold fetchCached; rw [hg]
  have hstepP : getPrices cp now0 (.ok raw) =
      ⟨.ok (raw.map fun kp => { kp.2 with assetPairId := kp.1 }),
        cacheSet cp "reya-prices"
          (raw.map fun kp => { kp.2 with assetPairId := kp.1 })
          CACHE_TTL_PRICES now0, 1⟩ := by
    unfold getPrices; rw [hgp]
  rw [hstep, hstepP]
  refine ⟨⟨rfl, rfl, cacheFind_cacheSet_self .., ?_⟩,
    rfl, rfl, cacheFind_cacheSet_self .., ?_⟩
  · intro now' hlt o
    unfold fetchCached
    rw [cacheGet_cacheSet_fresh c key v ttl now now' hlt]
    exact ⟨rfl, rfl, rfl⟩
  · intro now' hlt o
    unfold getPrices
    rw [cacheGet_cacheSet_fresh cp "reya-prices" _ CACHE_TTL_PRICES now0
      now' hlt]
    exact ⟨rfl, rfl⟩

/-- C4 witness: the cache-freshness statement at the empty caches,
key "reya-markets" with TTL 300, value 42, and an empty prices
response at time 0. -/
theorem cacheFreshness_witness :
    hasKey ([] : CacheMap Nat) "reya-markets" = false ∧
    hasKey ([] : CacheMap (List Price)) "reya-prices" = false ∧
    (((fetchCached ([] : CacheMap Nat) "reya-markets" 300 0
        (.ok 42)).networkCalls = 1 ∧
      (fetchCached ([] : CacheMap Nat) "reya-markets" 300 0
        (.ok 42)).result = .ok 42 ∧
      cacheFind (fetchCached ([] : CacheMap Nat) "reya-markets" 300 0
          (.ok 42)).cache "reya-markets" = some ⟨42, 0 + 300 * 1000⟩ ∧
      ∀ now', now' < 0 + 300 * 1000 → ∀ o,
        (fetchCached (fetchCached ([] : CacheMap Nat) "reya-markets" 300 0
            (.ok 42)).cache "reya-markets" 300 now' o).networkCalls = 0 ∧
        (fetchCached (fetchCached ([] : CacheMap Nat) "reya-markets" 300 0
            (.ok 42)).cache "reya-markets" 300 now' o).result = .ok 42 ∧
        (fetchCached (fetchCached ([] : CacheMap Nat) "reya-markets" 300 0
            (.ok 42)).cache "reya-markets" 300 now' o).cache =
          (fetchCached ([] : CacheMap Nat) "reya-markets" 300 0
            (.ok 42)).cache) ∧
     ((getPrices [] 0 (.ok ([] : PricesResponse))).networkCalls = 1 ∧
      (getPrices [] 0 (.ok ([] : PricesResponse))).result =
        .ok (([] : PricesResponse).map fun kp =>
          { kp.2 with assetPairId := kp.1 }) ∧
      cacheFind (getPrices [] 0
          (.ok ([] : PricesResponse))).cache "reya-prices" =
        some ⟨([] : PricesResponse).map fun kp =>
          { kp.2 with assetPairId := kp.1 },
          0 + CACHE_TTL_PRICES * 1000⟩ ∧
      ∀ now', now' < 0 + CACHE_TTL_PRICES * 1000 → ∀ o,
        (getPrices (getPrices [] 0
            (.ok ([] : PricesResponse))).cache now' o).networkCalls = 0 ∧
        (getPrices (getPrices [] 0
            (.ok ([] : PricesResponse))).cache now' o).result =
          .ok (([] : PricesResponse).map fun kp =>
            { kp.2 with assetPairId := kp.1 }))) :=
  ⟨rfl, rfl, cacheFreshness [] "reya-markets" 300 0 42 [] 0 [] rfl rfl⟩

/-- C8: `validateReyaConfig` resolves exactly when the foreign WHATWG
URL parser (passed as `isURL`) accepts the effective base URL — the
configured `REYA_API_BASE_URL` setting when present and non-empty,
otherwise the documented default "https://api.reya.xyz" — so it throws
precisely on a malformed effective URL, refusing initialization; and
provided the parser accepts the default (which the real parser does),
it never throws when no setting is configured. -/
theorem validateReyaConfig_spec (isURL : String → Bool)
    (setting : Option String) :
    (validateReyaConfig isURL setting = .ok () ↔
      isURL (effectiveBaseUrl setting) = true) ∧
    (isURL REYA_API_BASE_URL = true →
      validateReyaConfig isURL none = .ok ()) := by
  constructor
  · unfold validateReyaConfig
    dsimp only
    rw [if_neg (effectiveBaseUrl_ne_empty setting)]
    by_cases hu : isURL (effectiveBaseUrl setting) = true
    · rw [if_pos hu]
      simp [hu]
    · rw [if_neg hu]
      simp [hu]
  · intro hd
    unfold validateReyaConfig
    dsimp only
    rw [if_neg (effectiveBaseUrl_ne_empty none)]
    have hdef : effectiveBaseUrl none = REYA_API_BASE_URL := rfl
    rw [hdef, if_pos hd]

/-- C8 witness: with a parser accepting exactly the default URL, a
default configuration validates, and a malformed configured URL
rejects iff the parser rejects it. -/
theorem validateReyaConfig_witness :
    validateReyaConfig (fun s => s == REYA_API_BASE_URL) none = .ok () ∧
    (validateReyaConfig (fun s => s == REYA_API_BASE_URL)
        (some "not a url") = .ok () ↔
      (fun s => s == REYA_API_BASE_URL) (effectiveBaseUrl (some "not a url")) =
        true) :=
  ⟨(validateReyaConfig_spec (fun s => s == REYA_API_BASE_URL) none).2
      (by decide),
   (validateReyaConfig_spec (fun s => s == REYA_API_BASE_URL)
      (some "not a url")).1⟩

/-- C9 counterexample: at the true dollar price 1e27 the quotient
1e27 / 1e18 = 1e9 is below 1e12, so `formatPrice` does NOT return
"N/A" there — it formats 1e9 — refuting the claim's "if the quotient
is still >= 1e12 (i.e., num >= 1e27) it returns N/A" (the correct
back-substituted bound is 1e30). -/
theorem formatPrice_1e27_not_NA :
    formatPrice (some ((10:ℚ)^27)) = .loc ((10:ℚ)^9) 2 2 ∧
    formatPrice (some ((10:ℚ)^27)) ≠ .NA := by
  have h : formatPrice (some ((10:ℚ)^27)) = .loc ((10:ℚ)^9) 2 2 := by
    norm_num [formatPrice, formatByMagnitude]
  refine ⟨h, ?_⟩
  rw [h]
  simp

/-- C9 (amended): for every finite numeric input `num ≥ 1e15`,
`formatPrice` treats the value as 18-decimal fixed point and formats
`num / 1e18`; it returns "N/A" exactly when the quotient is `≥ 1e12`,
i.e. when `num ≥ 1e30` — hence every true dollar price in
`[1e15, 1e30)` is silently divided by 1e18 before display. -/
theorem formatPrice_wei_heuristic (q : ℚ) (h15 : (10:ℚ)^15 ≤ q) :
    (formatPrice (some q) = .NA ↔ (10:ℚ)^30 ≤ q) ∧
    (q < 10^30 → formatPrice (some q) = formatByMagnitude (q / 10^18)) := by
  unfold formatPrice
  dsimp only
  rw [if_pos h15]
  constructor
  · constructor
    · intro hna
      by_cases hq : (10:ℚ)^12 ≤ q / 10^18
      · exact (wei_threshold q).1 hq
      · rw [if_neg hq] at hna
        exact absurd hna (formatByMagnitude_ne_NA _)
    · intro h30
      rw [if_pos ((wei_threshold q).2 h30)]
  · intro hlt
    rw [if_neg (fun hq => absurd ((wei_threshold q).1 hq) (not_le.2 hlt))]

/-- C9 witness: the amended wei-heuristic statement at the concrete
price 1e16 (which is divided down to 0.01, not rejected). -/
theorem formatPrice_wei_witness :
    (10:ℚ)^15 ≤ 10^16 ∧
    ((formatPrice (some ((10:ℚ)^16)) = .NA ↔ (10:ℚ)^30 ≤ 10^16) ∧
     ((10:ℚ)^16 < 10^30 →
       formatPrice (some ((10:ℚ)^16)) =
         formatByMagnitude ((10:ℚ)^16 / 10^18))) :=
  ⟨by norm_num, formatPrice_wei_heuristic ((10:ℚ)^16) (by norm_num)⟩

/-- C10: `dispatch` never rejects — a thrown analysis or routing step
is caught and yields `shouldProceed: true, response: undefined,
usedSource: "fallback"` — and each API-backed route (price, market,
asset) turns an upstream fetch failure into `shouldProceed: true,
usedSource: "api_error"` with no response and no callback emission, so
a failed dispatch always yields control to other handlers. -/
theorem dispatch_error_resilience :
    (∀ e env, dispatch (.error e) env =
      ({ shouldProceed := true, response := none,
         usedSource := "fallback" }, [])) ∧
    (∀ a env err, a.intent = "PRICE_QUERY" → env.prices = .error err →
      dispatch (.ok a) env =
        ({ shouldProceed := true, response := none,
           usedSource := "api_error" }, [])) ∧
    (∀ a env err, a.intent = "MARKET_QUERY" → env.markets = .error err →
      dispatch (.ok a) env =
        ({ shouldProceed := true, response := none,
           usedSource := "api_error" }, [])) ∧
    (∀ a env ms err, a.intent = "MARKET_QUERY" → env.markets = .ok ms →
      env.marketsData = .error err →
      dispatch (.ok a) env =
        ({ shouldProceed := true, response := none,
           usedSource := "api_error" }, [])) ∧
    (∀ a env err, a.intent = "ASSET_QUERY" → env.assets = .error err →
      dispatch (.ok a) env =
        ({ shouldProceed := true, response := none,
           usedSource := "api_error" }, [])) := by
  refine ⟨fun e env => rfl, ?_, ?_, ?_, ?_⟩
  · intro a env err ha hp
    show routeRequest a env = _
    unfold routeRequest handlePriceQuery
    rw [ha, hp]
    rfl
  · intro a env err ha hm
    show routeRequest a env = _
    unfold routeRequest handleMarketQuery
    rw [ha, hm]
    rfl
  · intro a env ms err ha hm hmd
    show routeRequest a env = _
    unfold routeRequest handleMarketQuery
    rw [ha, hm, hmd]
    rfl
  · intro a env err ha hassets
    show routeRequest a env = _
    unfold routeRequest handleAssetQuery
    rw [ha, hassets]
    rfl

/-- C10 witness: with every upstream fetch failing, a price-intent
dispatch yields the api_error outcome and a thrown analysis yields the
fallback outcome, in both cases with no emission. -/
theorem dispatch_error_witness :
    priceAnalysisExample.intent = "PRICE_QUERY" ∧
    dispatch (.ok priceAnalysisExample) envAllFail =
      ({ shouldProceed := true, response := none,
         usedSource := "api_error" }, []) ∧
    dispatch (.error "analysis failed") envAllFail =
      ({ shouldProceed := true, response := none,
         usedSource := "fallback" }, []) :=
  ⟨by decide,
   dispatch_error_resilience.2.1 priceAnalysisExample envAllFail
     (.httpStatus 500) (by decide) rfl,
   dispatch_error_resilience.1 "analysis failed" envAllFail⟩
